import Mathlib

/-!
Verification of the lead-scoring engine of the DPC health-insurance
lead-generation system.

Shallow embedding of:
  * `config/lead_scoring.py`  — configuration records, industry / size lookup
  * `models/lead_score.py`    — `LeadScore.calculate_grade`
  * `utils/lead_scoring.py`   — `LeadScoringService` (component scorers,
    variant resolution, `calculate_score`, `batch_score_companies`)
  * `utils/ab_testing.py`     — `ABTestTracker.get_variant_assignment`,
    `ABTestTracker._calculate_significance`

Modelling conventions:
  * Python floats are modelled as `ℚ`; Python ints as `ℤ`; `int(x)` on a
    float truncates toward zero (`int_trunc`).
  * Python dicts (insertion-ordered, unique keys) are association lists;
    `d[k]` / `d.get(k)`.  A raising access (`d[k]`) is `Option`-valued and
    `none` models the raised `KeyError`; likewise a raising list index.
  * `hashlib.md5` is abstracted as a deterministic oracle
    `md5_int : String → ℕ` standing for `int(md5(s).hexdigest(), 16)`.
  * Wall-clock time (`datetime.utcnow()`) is passed explicitly (`now : ℤ`,
    in days); `updated_at > utcnow() - timedelta(days=30)` becomes
    `now - 30 < t`.
  * Python truthiness of optional strings / ints is `truthy_str` /
    `truthy_int`.
  * The size-table keys ("1-10", "5000+", …) are parsed once at embedding
    time into the `RangeSpec` inductive, mirroring `_is_in_range`.
  * The free-text fields of the result that no claim touches
    (`scoring_factors`, `score_reasons`, `recommendations`) are omitted
    from the embedded result record.
-/

namespace LeadGen

/-- A contact record, reduced to the four flags consumed by the contact
scorer (`is_executive` / `is_hr_related` are derived keyword predicates on
the SQL model; the scorer only reads their boolean value). -/
structure Contact where
  is_decision_maker : Bool
  is_executive : Bool
  is_hr_related : Bool
  email_verified : Bool
deriving DecidableEq

/-- The slice of the `Company` SQL model read by the scoring service.
`id` is `str(company.id)` of the UUID. -/
structure Company where
  id : String
  naics_code : Option String
  employee_range : Option String
  employee_count_min : Option Int
  employee_count_max : Option Int
  employee_count_exact : Option Int
  website : Option String
  phone : Option String
  email_domain : Option String
  street_address : Option String
  city : Option String
  state : Option String
  ein : Option String
  updated_at : Option Int
  contacts : List Contact
deriving DecidableEq

/-- `config/lead_scoring.py::IndustryWeight` (pydantic validates
`weight ∈ [0,2]` and `base_score ∈ [0,100]`). -/
structure IndustryWeight where
  naics_code : String
  weight : ℚ
  base_score : ℤ
  risk_level : String
  description : String
deriving DecidableEq

/-- One value of `EmployeeSizeConfig.ranges`: `{"score": _, "bonus": _,
"category": _}`. -/
structure SizeBucket where
  score : ℤ
  bonus : ℤ
  category : String
deriving DecidableEq

/-- A size-table key string, parsed per `_is_in_range`:
`"lo-hi"` ↦ `interval lo hi`, `"lo+"` ↦ `atLeast lo`, `"n"` ↦ `exact n`. -/
inductive RangeSpec where
  | interval (lo hi : Int)
  | atLeast (lo : Int)
  | exact (n : Int)
deriving DecidableEq

/-- `config/lead_scoring.py::EmployeeSizeConfig`. -/
structure EmployeeSizeConfig where
  ranges : List (RangeSpec × SizeBucket)
  optimal_min : ℤ
  optimal_max : ℤ
  bonus_points : ℤ
deriving DecidableEq

/-- `config/lead_scoring.py::ContactScoringConfig`. -/
structure ContactScoringConfig where
  decision_maker_base_points : ℤ
  executive_bonus_points : ℤ
  hr_benefits_bonus_points : ℤ
  verified_email_bonus : ℤ
  multiple_contacts_bonus : ℤ
  max_contact_score : ℤ
deriving DecidableEq

/-- One entry of `ABTestConfig.algorithm_variants`. -/
structure VariantConfig where
  version : String
  industry_weight : ℚ
  size_weight : ℚ
  contact_weight : ℚ
  data_quality_weight : ℚ
deriving DecidableEq

/-- `config/lead_scoring.py::ABTestConfig`. -/
structure ABTestConfig where
  enabled : Bool
  test_name : String
  variant_weights : List (String × ℚ)
  algorithm_variants : List (String × VariantConfig)
deriving DecidableEq

/-- `LeadScoringConfig.data_quality_weights` (a dict with these six fixed
keys). -/
structure DataQualityWeights where
  has_website : ℤ
  has_phone : ℤ
  has_email_domain : ℤ
  has_address : ℤ
  has_ein : ℤ
  recent_data : ℤ
deriving DecidableEq

/-- `config/lead_scoring.py::LeadScoringConfig`. -/
structure LeadScoringConfig where
  industry_weights : List (String × IndustryWeight)
  default_industry : IndustryWeight
  employee_size : EmployeeSizeConfig
  contact_scoring : ContactScoringConfig
  ab_testing : ABTestConfig
  data_quality_weights : DataQualityWeights
deriving DecidableEq

/-- The fields of the `LeadScore` record built by `calculate_score` that
are plain data (the JSON rationale blobs are omitted, see header). -/
structure LeadScoreResult where
  company_id : String
  total_score : ℤ
  score_grade : String
  industry_score : ℤ
  size_score : ℤ
  location_score : ℤ
  data_quality_score : ℤ
  engagement_score : ℤ
  industry_risk_level : String
  industry_multiplier : ℚ
  employee_count_used : ℤ
  size_category : String
  scoring_version : String
  created_by : String
deriving DecidableEq

/-- Python dict lookup `d.get(k)` over an insertion-ordered table. -/
def dict_get {κ α : Type} [DecidableEq κ] (k : κ) (l : List (κ × α)) : Option α :=
  (l.find? fun p => decide (p.1 = k)).map Prod.snd

/-- Python truthiness of an optional string (`None` and `""` are falsy). -/
def truthy_str : Option String → Bool
  | none => false
  | some s => !s.isEmpty

/-- Python truthiness of an optional int (`None` and `0` are falsy). -/
def truthy_int : Option Int → Bool
  | none => false
  | some n => decide (n ≠ 0)

/-- Python `int()` applied to a float: truncation toward zero. -/
def int_trunc (q : ℚ) : ℤ :=
  if 0 ≤ q then ⌊q⌋ else ⌈q⌉

/-- `models/lead_score.py::LeadScore.calculate_grade`. -/
def calculate_grade (score : ℤ) : String :=
  if 95 ≤ score then "A+"
  else if 90 ≤ score then "A"
  else if 85 ≤ score then "A-"
  else if 80 ≤ score then "B+"
  else if 75 ≤ score then "B"
  else if 70 ≤ score then "B-"
  else if 65 ≤ score then "C+"
  else if 60 ≤ score then "C"
  else if 55 ≤ score then "C-"
  else "D"

/-- The `for length in range(len(naics_code) - 1, 1, -1)` loop of
`get_industry_weight`: try `naics_code[:l]` for `l = n, n-1, …, 2`. -/
def industry_truncation_walk (table : List (String × IndustryWeight))
    (code : String) : ℕ → Option IndustryWeight
  | 0 => none
  | 1 => none
  | (l + 2) =>
    match dict_get (code.take (l + 2)) table with
    | some iw => some iw
    | none => industry_truncation_walk table code (l + 1)

/-- `config/lead_scoring.py::LeadScoringConfig.get_industry_weight`. -/
def get_industry_weight (cfg : LeadScoringConfig)
    (naics_code : Option String) : IndustryWeight :=
  match naics_code with
  | none => cfg.default_industry
  | some code =>
    if code.isEmpty then cfg.default_industry
    else
      match dict_get code cfg.industry_weights with
      | some iw => iw
      | none =>
        (industry_truncation_walk cfg.industry_weights code
          (code.length - 1)).getD cfg.default_industry

/-- `config/lead_scoring.py::LeadScoringConfig._is_in_range` on a parsed key. -/
def is_in_range (count : Int) : RangeSpec → Bool
  | .atLeast lo => decide (lo ≤ count)
  | .interval lo hi => decide (lo ≤ count ∧ count ≤ hi)
  | .exact n => decide (count = n)

/-- `config/lead_scoring.py::LeadScoringConfig.get_employee_size_config`;
`none` models the `KeyError` of the `ranges["1-10"]` fallback. -/
def get_employee_size_config (cfg : LeadScoringConfig)
    (employee_count : Int) : Option SizeBucket :=
  match cfg.employee_size.ranges.find? (fun p => is_in_range employee_count p.1) with
  | some p => some p.2
  | none => dict_get (RangeSpec.interval 1 10) cfg.employee_size.ranges

/-- `utils/lead_scoring.py::LeadScoringService._get_employee_count`,
Python `int()` modelled by `String.toInt?`, `//` by `Int.fdiv`,
`rstrip("+")` by dropping trailing `'+'`. -/
def get_employee_count (company : Company) : Int :=
  if truthy_int company.employee_count_exact then
    company.employee_count_exact.getD 0
  else if truthy_int company.employee_count_min && truthy_int company.employee_count_max then
    Int.fdiv (company.employee_count_min.getD 0 + company.employee_count_max.getD 0) 2
  else if truthy_int company.employee_count_min then
    company.employee_count_min.getD 0
  else
    match company.employee_range with
    | none => 0
    | some er =>
      if er.isEmpty then 0
      else if er.contains '-' then
        match er.splitOn "-" with
        | [min_val, max_val] =>
          match min_val.toInt?, (max_val.dropRightWhile (· = '+')).toInt? with
          | some a, some b => Int.fdiv (a + b) 2
          | _, _ => 0
        | _ => 0
      else if er.endsWith "+" then
        ((er.dropRightWhile (· = '+')).toInt?).getD 0
      else
        er.toInt?.getD 0

/-- `utils/lead_scoring.py::LeadScoringService._calculate_industry_score`. -/
def calculate_industry_score (cfg : LeadScoringConfig) (company : Company) : ℚ :=
  let industry_config := get_industry_weight cfg company.naics_code
  min 100 ((industry_config.base_score : ℚ) * industry_config.weight)

/-- `utils/lead_scoring.py::LeadScoringService._calculate_size_score`;
`none` models the propagated `KeyError` of the size-table fallback. -/
def calculate_size_score (cfg : LeadScoringConfig) (company : Company) : Option ℚ :=
  let employee_count := get_employee_count company
  if employee_count = 0 then some 20
  else
    (get_employee_size_config cfg employee_count).map fun size_config =>
      let base_score := (size_config.score : ℚ)
      let bonus := (size_config.bonus : ℚ) +
        (if cfg.employee_size.optimal_min ≤ employee_count ∧
            employee_count ≤ cfg.employee_size.optimal_max
         then (cfg.employee_size.bonus_points : ℚ) else 0)
      min 100 (base_score + bonus)

/-- `utils/lead_scoring.py::LeadScoringService._calculate_contact_score`. -/
def calculate_contact_score (config : ContactScoringConfig)
    (contacts : List Contact) : ℚ :=
  if contacts = [] then 0
  else
    let decision_makers := contacts.filter (·.is_decision_maker)
    let executives := contacts.filter (·.is_executive)
    let hr_contacts := contacts.filter (·.is_hr_related)
    let verified_emails := contacts.filter (·.email_verified)
    let score : ℚ :=
      (decision_makers.length : ℚ) * (config.decision_maker_base_points : ℚ)
      + (executives.length : ℚ) * (config.executive_bonus_points : ℚ)
      + (hr_contacts.length : ℚ) * (config.hr_benefits_bonus_points : ℚ)
      + (verified_emails.length : ℚ) * (config.verified_email_bonus : ℚ)
    let score :=
      if 3 ≤ contacts.length then score + (config.multiple_contacts_bonus : ℚ)
      else score
    min (config.max_contact_score : ℚ) score

/-- `utils/lead_scoring.py::LeadScoringService._calculate_data_quality_score`.
`now` is the scoring-time clock in days. -/
def calculate_data_quality_score (cfg : LeadScoringConfig) (company : Company)
    (now : ℤ) : ℚ :=
  let weights := cfg.data_quality_weights
  let score : ℚ :=
    (if truthy_str company.website then (weights.has_website : ℚ) else 0)
    + (if truthy_str company.phone then (weights.has_phone : ℚ) else 0)
    + (if truthy_str company.email_domain then (weights.has_email_domain : ℚ) else 0)
    + (if truthy_str company.street_address && truthy_str company.city &&
          truthy_str company.state then (weights.has_address : ℚ) else 0)
    + (if truthy_str company.ein then (weights.has_ein : ℚ) else 0)
    + (if (match company.updated_at with
           | some t => decide (now - 30 < t)
           | none => false) then (weights.recent_data : ℚ) else 0)
  min 20 score

/-- The variant loop of `_get_algorithm_variant`: accumulate
`weight / total_weight` and return the first variant whose cumulative
weight covers `normalized`. -/
def weight_walk (normalized total : ℚ) :
    List (String × ℚ) → ℚ → Option String
  | [], _ => none
  | (variant, weight) :: rest, cumulative =>
    if normalized ≤ cumulative + weight / total then some variant
    else weight_walk normalized total rest (cumulative + weight / total)

/-- `utils/lead_scoring.py::LeadScoringService._get_algorithm_variant`.
`md5_int s` stands for `int(hashlib.md5(s.encode()).hexdigest(), 16)`. -/
def get_algorithm_variant (cfg : LeadScoringConfig) (md5_int : String → ℕ)
    (company_id : String) : String :=
  if !cfg.ab_testing.enabled then "control"
  else
    let hash_value := md5_int company_id
    let total_weight : ℚ := (cfg.ab_testing.variant_weights.map Prod.snd).sum
    let normalized_hash : ℚ := ((hash_value % 1000 : ℕ) : ℚ) / 1000
    match weight_walk normalized_hash total_weight cfg.ab_testing.variant_weights 0 with
    | some variant => variant
    | none => "control"

/-- `utils/lead_scoring.py::LeadScoringService._get_variant_config`:
`variants.get(variant, variants["control"])` — the `variants["control"]`
default is evaluated unconditionally, so a table without `"control"`
raises (`none`) even for a known variant. -/
def get_variant_config (cfg : LeadScoringConfig) (variant : String) :
    Option VariantConfig :=
  (dict_get "control" cfg.ab_testing.algorithm_variants).map fun control_config =>
    (dict_get variant cfg.ab_testing.algorithm_variants).getD control_config

/-- `utils/lead_scoring.py::LeadScoringService.calculate_score`.
`none` models a raised exception (missing `"control"` variant or missing
`"1-10"` size bucket); every other path is total. `contacts = none`
models the `contacts is None` default (falls back to `company.contacts`);
an `algorithm_variant` that is `None` or empty (Python `or`-falsy) falls
back to the hash-based resolver. -/
def calculate_score (cfg : LeadScoringConfig) (md5_int : String → ℕ)
    (now : ℤ) (company : Company) (contacts : Option (List Contact))
    (algorithm_variant : Option String) : Option LeadScoreResult :=
  let variant :=
    match algorithm_variant with
    | some v => if v.isEmpty then get_algorithm_variant cfg md5_int company.id else v
    | none => get_algorithm_variant cfg md5_int company.id
  match get_variant_config cfg variant with
  | none => none
  | some variant_config =>
    let contacts := contacts.getD company.contacts
    let industry_score := calculate_industry_score cfg company
    match calculate_size_score cfg company with
    | none => none
    | some size_score =>
      let contact_score := calculate_contact_score cfg.contact_scoring contacts
      let data_quality_score := calculate_data_quality_score cfg company now
      let total_score : ℚ :=
        min 100
          (industry_score * variant_config.industry_weight
           + size_score * variant_config.size_weight
           + contact_score * variant_config.contact_weight
           + data_quality_score * variant_config.data_quality_weight)
      match get_employee_size_config cfg (get_employee_count company) with
      | none => none
      | some size_bucket =>
        some
          { company_id := company.id
            total_score := int_trunc total_score
            score_grade := calculate_grade (int_trunc total_score)
            industry_score := int_trunc industry_score
            size_score := int_trunc size_score
            location_score := 0
            data_quality_score := int_trunc data_quality_score
            engagement_score := int_trunc contact_score
            industry_risk_level := (get_industry_weight cfg company.naics_code).risk_level
            industry_multiplier := (get_industry_weight cfg company.naics_code).weight
            employee_count_used := get_employee_count company
            size_category := size_bucket.category
            scoring_version := variant_config.version
            created_by := "algorithm_" ++ variant }

/-- `utils/lead_scoring.py::LeadScoringService.batch_score_companies`,
restricted to its per-item loop (the SQL staleness query and the
side-effecting `company.lead_score` update are outside the claims).
The scorer is abstracted as an `Except`-valued function; `.error`
models a raised exception, which the loop catches, logs and skips. -/
def batch_score_companies (score_fn : Company → Except String LeadScoreResult) :
    List Company → List LeadScoreResult
  | [] => []
  | company :: rest =>
    match score_fn company with
    | .ok lead_score => lead_score :: batch_score_companies score_fn rest
    | .error _ => batch_score_companies score_fn rest

/-- The per-variant statistics consumed by `_calculate_significance`
(`sample_size` and `conversion_rate`; the other dict entries are unused
there). -/
structure VariantStats where
  sample_size : ℕ
  conversion_rate : ℚ
deriving DecidableEq

/-- `utils/ab_testing.py::ABTestTracker._calculate_significance`.
Result is `(is_significant, p_value, winning_variant, lift)`; the first
two table entries are control and variant, and fewer than two entries
short-circuits to "not significant" (the `len(variant_stats) < 2` guard). -/
def calculate_significance (variant_stats : List (String × VariantStats)) :
    Bool × Option ℚ × Option String × Option ℚ :=
  match variant_stats with
  | (control, control_stats) :: (variant, variant_stats_data) :: _ =>
    if control_stats.sample_size < 30 ∨ variant_stats_data.sample_size < 30 then
      (false, none, none, none)
    else
      let control_rate := control_stats.conversion_rate
      let variant_rate := variant_stats_data.conversion_rate
      let lift : ℚ :=
        if 0 < control_rate then (variant_rate - control_rate) / control_rate * 100
        else 0
      let difference := |variant_rate - control_rate|
      let is_significant := decide (0.05 < difference)
      let winning_variant := if control_rate < variant_rate then variant else control
      (is_significant, some 0.05, some winning_variant, some lift)
  | _ => (false, none, none, none)

/-- The test-configuration dict consumed by `get_variant_assignment`
(`test_name`, `traffic_split`, and the keys-in-order of
`variant_configs`; the per-variant config payloads are not read there). -/
structure TestConfig where
  test_name : String
  traffic_split : List (String × ℚ)
  variant_configs : List (String × VariantConfig)
deriving DecidableEq

/-- The traffic-split loop of `get_variant_assignment`: accumulate raw
weights and return the first variant whose cumulative weight covers
`normalized`. -/
def assign_walk (normalized : ℚ) :
    List (String × ℚ) → ℚ → Option String
  | [], _ => none
  | (variant, weight) :: rest, cumulative =>
    if normalized ≤ cumulative + weight then some variant
    else assign_walk normalized rest (cumulative + weight)

/-- `utils/ab_testing.py::ABTestTracker.get_variant_assignment`.
Hashes `f"{test_name}_{company_id}"`; `none` models the `IndexError` of
the `list(variant_configs.keys())[0]` fallback on an empty table. -/
def get_variant_assignment (md5_int : String → ℕ) (company_id : String)
    (test_config : TestConfig) : Option String :=
  let hash_value := md5_int (test_config.test_name ++ "_" ++ company_id)
  let normalized_hash : ℚ := ((hash_value % 1000 : ℕ) : ℚ) / 1000
  match assign_walk normalized_hash test_config.traffic_split 0 with
  | some variant => some variant
  | none => (test_config.variant_configs.map Prod.fst).head?

/-- The pydantic default `LeadScoringConfig()` (every `Field(default=...)`
of `config/lead_scoring.py`, in dict insertion order). -/
def defaultConfig : LeadScoringConfig :=
  { industry_weights :=
      [ ("621", { naics_code := "621", weight := 18/10, base_score := 85,
                  risk_level := "low",
                  description := "Ambulatory Health Care Services" })
      , ("622", { naics_code := "622", weight := 17/10, base_score := 80,
                  risk_level := "low", description := "Hospitals" })
      , ("623", { naics_code := "623", weight := 16/10, base_score := 75,
                  risk_level := "medium",
                  description := "Nursing and Residential Care Facilities" })
      , ("541", { naics_code := "541", weight := 14/10, base_score := 70,
                  risk_level := "low",
                  description := "Professional, Scientific, and Technical Services" })
      , ("551", { naics_code := "551", weight := 13/10, base_score := 68,
                  risk_level := "low",
                  description := "Management of Companies and Enterprises" })
      , ("31", { naics_code := "31", weight := 12/10, base_score := 65,
                 risk_level := "medium", description := "Manufacturing" })
      , ("32", { naics_code := "32", weight := 12/10, base_score := 65,
                 risk_level := "medium", description := "Manufacturing" })
      , ("33", { naics_code := "33", weight := 12/10, base_score := 65,
                 risk_level := "medium", description := "Manufacturing" })
      , ("52", { naics_code := "52", weight := 11/10, base_score := 60,
                 risk_level := "medium", description := "Finance and Insurance" })
      , ("518", { naics_code := "518", weight := 13/10, base_score := 68,
                  risk_level := "low",
                  description := "Data Processing, Hosting, and Related Services" })
      , ("519", { naics_code := "519", weight := 13/10, base_score := 68,
                  risk_level := "low", description := "Other Information Services" })
      , ("23", { naics_code := "23", weight := 9/10, base_score := 45,
                 risk_level := "high", description := "Construction" })
      , ("44", { naics_code := "44", weight := 8/10, base_score := 40,
                 risk_level := "high", description := "Retail Trade" })
      , ("45", { naics_code := "45", weight := 8/10, base_score := 40,
                 risk_level := "high", description := "Retail Trade" })
      , ("72", { naics_code := "72", weight := 7/10, base_score := 35,
                 risk_level := "high",
                 description := "Accommodation and Food Services" }) ]
    default_industry :=
      { naics_code := "unknown", weight := 1, base_score := 50,
        risk_level := "medium", description := "Unknown Industry" }
    employee_size :=
      { ranges :=
          [ (.interval 1 10, { score := 20, bonus := 0, category := "micro" })
          , (.interval 11 50, { score := 40, bonus := 0, category := "small" })
          , (.interval 51 100, { score := 60, bonus := 0, category := "small-medium" })
          , (.interval 101 250, { score := 85, bonus := 15, category := "medium" })
          , (.interval 251 500, { score := 80, bonus := 10, category := "medium-large" })
          , (.interval 501 1000, { score := 70, bonus := 0, category := "large" })
          , (.interval 1001 5000, { score := 50, bonus := 0, category := "enterprise" })
          , (.atLeast 5000, { score := 30, bonus := 0, category := "mega" }) ]
        optimal_min := 100
        optimal_max := 500
        bonus_points := 15 }
    contact_scoring :=
      { decision_maker_base_points := 10
        executive_bonus_points := 5
        hr_benefits_bonus_points := 8
        verified_email_bonus := 3
        multiple_contacts_bonus := 5
        max_contact_score := 30 }
    ab_testing :=
      { enabled := false
        test_name := ""
        variant_weights := [("control", 5/10), ("variant_a", 5/10)]
        algorithm_variants :=
          [ ("control",
              { version := "1.0", industry_weight := 4/10, size_weight := 3/10,
                contact_weight := 2/10, data_quality_weight := 1/10 })
          , ("variant_a",
              { version := "1.1", industry_weight := 35/100, size_weight := 25/100,
                contact_weight := 3/10, data_quality_weight := 1/10 }) ] }
    data_quality_weights :=
      { has_website := 5, has_phone := 5, has_email_domain := 3,
        has_address := 3, has_ein := 2, recent_data := 2 } }

/-! Spec-side definitions.  Each `...Spec` definition below transcribes the
wording of the specification sentence backing a claim, to be compared with
the source-derived definition above. -/

/-- The documented grade ladder as a threshold table, highest first. -/
def gradeLadder : List (ℤ × String) :=
  [(95, "A+"), (90, "A"), (85, "A-"), (80, "B+"), (75, "B"),
   (70, "B-"), (65, "C+"), (60, "C"), (55, "C-")]

/-- Spec wording of the grade function: the first ladder row whose
threshold the score reaches, otherwise `"D"`. -/
def gradeSpec (score : ℤ) : String :=
  ((gradeLadder.find? fun p => decide (p.1 ≤ score)).map Prod.snd).getD "D"

/-- Spec wording of the industry lookup: try the exact code, then every
truncation of the query in order of decreasing length (length-1 down to
2 characters), return the first table hit, else the default entry;
a missing or empty code yields the default entry. -/
def industryLookupSpec (cfg : LeadScoringConfig)
    (naics_code : Option String) : IndustryWeight :=
  match naics_code with
  | none => cfg.default_industry
  | some code =>
    if code.isEmpty then cfg.default_industry
    else
      ((code :: ((List.range' 2 (code.length - 2)).reverse.map fun l => code.take l)).findSome?
        (fun candidate => dict_get candidate cfg.industry_weights)).getD
        cfg.default_industry

/-- Spec wording of the contact score: per-category counts times the
configured points, the multiple-contacts bonus once at three or more
contacts, clamped to the configured maximum; an empty list scores 0. -/
def contactScoreSpec (config : ContactScoringConfig)
    (contacts : List Contact) : ℚ :=
  if contacts = [] then 0
  else
    min (config.max_contact_score : ℚ)
      ((contacts.countP (·.is_decision_maker) : ℚ) * (config.decision_maker_base_points : ℚ)
       + (contacts.countP (·.is_executive) : ℚ) * (config.executive_bonus_points : ℚ)
       + (contacts.countP (·.is_hr_related) : ℚ) * (config.hr_benefits_bonus_points : ℚ)
       + (contacts.countP (·.email_verified) : ℚ) * (config.verified_email_bonus : ℚ)
       + (if 3 ≤ contacts.length then (config.multiple_contacts_bonus : ℚ) else 0))

/-- Pair each variant with the running sum of the weights up to and
including it, starting from `acc` (spec wording of the cumulative walk). -/
def runningTotals (acc : ℚ) : List (String × ℚ) → List (String × ℚ)
  | [] => []
  | (variant, weight) :: rest => (variant, acc + weight) :: runningTotals (acc + weight) rest

/-- The numeric-range constraints on a configured industry entry that
pydantic validates at load time (`weight ∈ [0,2]`, `base_score ∈ [0,100]`). -/
def IndustryWeightOK (iw : IndustryWeight) : Prop :=
  0 ≤ iw.weight ∧ iw.weight ≤ 2 ∧ 0 ≤ iw.base_score ∧ iw.base_score ≤ 100

/-- The non-negativity constraints on the contact-scoring constants
(true of the shipped defaults; pydantic does not enforce them). -/
def ContactConfigOK (config : ContactScoringConfig) : Prop :=
  0 ≤ config.decision_maker_base_points
  ∧ 0 ≤ config.executive_bonus_points
  ∧ 0 ≤ config.hr_benefits_bonus_points
  ∧ 0 ≤ config.verified_email_bonus
  ∧ 0 ≤ config.multiple_contacts_bonus
  ∧ 0 ≤ config.max_contact_score

instance (config : ContactScoringConfig) : Decidable (ContactConfigOK config) := by
  unfold ContactConfigOK
  infer_instance

/-- Non-negativity of the per-flag data-quality weights. -/
def DataQualityWeightsOK (w : DataQualityWeights) : Prop :=
  0 ≤ w.has_website ∧ 0 ≤ w.has_phone ∧ 0 ≤ w.has_email_domain
  ∧ 0 ≤ w.has_address ∧ 0 ≤ w.has_ein ∧ 0 ≤ w.recent_data

/-- Non-negativity of a variant's four component weights. -/
def VariantWeightsOK (vc : VariantConfig) : Prop :=
  0 ≤ vc.industry_weight ∧ 0 ≤ vc.size_weight
  ∧ 0 ≤ vc.contact_weight ∧ 0 ≤ vc.data_quality_weight

/-- A well-formed scoring configuration: the pydantic-validated industry
ranges plus non-negativity of every point constant and variant weight
(true of the shipped defaults, checked in the witnesses). -/
def WellFormedConfig (cfg : LeadScoringConfig) : Prop :=
  (∀ p ∈ cfg.industry_weights, IndustryWeightOK p.2)
  ∧ IndustryWeightOK cfg.default_industry
  ∧ (∀ p ∈ cfg.employee_size.ranges, 0 ≤ p.2.score ∧ 0 ≤ p.2.bonus)
  ∧ 0 ≤ cfg.employee_size.bonus_points
  ∧ ContactConfigOK cfg.contact_scoring
  ∧ DataQualityWeightsOK cfg.data_quality_weights
  ∧ (∀ p ∈ cfg.ab_testing.algorithm_variants, VariantWeightsOK p.2)

/-! Concrete fixtures used by the witnesses. -/

/-- A company record with the given id and every optional field absent. -/
def testCompany (i : String) : Company :=
  { id := i, naics_code := none, employee_range := none,
    employee_count_min := none, employee_count_max := none,
    employee_count_exact := none, website := none, phone := none,
    email_domain := none, street_address := none, city := none,
    state := none, ein := none, updated_at := none, contacts := [] }

/-- A minimal score record attributed to the given company id. -/
def emptyResult (cid : String) : LeadScoreResult :=
  { company_id := cid, total_score := 0, score_grade := "D",
    industry_score := 0, size_score := 0, location_score := 0,
    data_quality_score := 0, engagement_score := 0,
    industry_risk_level := "medium", industry_multiplier := 1,
    employee_count_used := 0, size_category := "micro",
    scoring_version := "1.0", created_by := "test" }

/-- A batch of ten companies, ids `"c1"` … `"c10"`. -/
def witnessCompanies : List Company :=
  ["c1", "c2", "c3", "c4", "c5", "c6", "c7", "c8", "c9", "c10"].map testCompany

/-- A scorer that deliberately fails on the fifth item and succeeds on
the rest. -/
def witnessScoreFn (c : Company) : Except String LeadScoreResult :=
  if c.id = "c5" then .error "malformed item" else .ok (emptyResult c.id)

/-- A contact carrying every scored attribute at once. -/
def fullContact : Contact :=
  { is_decision_maker := true, is_executive := true,
    is_hr_related := true, email_verified := true }

/-- The score record `calculate_score` produces for `testCompany "c0"` on
the default config (unknown industry 50 × weight 1, size 20 for unknown
count, no contacts, no quality flags: total
`min 100 (50·0.4 + 20·0.3 + 0·0.2 + 0·0.1) = 26`, grade D). -/
def scoredC0 : LeadScoreResult :=
  { company_id := "c0", total_score := 26, score_grade := "D",
    industry_score := 50, size_score := 20, location_score := 0,
    data_quality_score := 0, engagement_score := 0,
    industry_risk_level := "medium", industry_multiplier := 1,
    employee_count_used := 0, size_category := "micro",
    scoring_version := "1.0", created_by := "algorithm_control" }

/-! Helper lemmas. -/

theorem contact_score_raw_nonneg (config : ContactScoringConfig)
    (contacts : List Contact) (hok : ContactConfigOK config) :
    0 ≤ (contacts.filter (·.is_decision_maker)).length * (config.decision_maker_base_points : ℚ)
      + (contacts.filter (·.is_executive)).length * (config.executive_bonus_points : ℚ)
      + (contacts.filter (·.is_hr_related)).length * (config.hr_benefits_bonus_points : ℚ)
      + (contacts.filter (·.email_verified)).length * (config.verified_email_bonus : ℚ) := by
  obtain ⟨h1, h2, h3, h4, h5, h6⟩ := hok
  have c1 : (0 : ℚ) ≤ (config.decision_maker_base_points : ℚ) := by exact_mod_cast h1
  have c2 : (0 : ℚ) ≤ (config.executive_bonus_points : ℚ) := by exact_mod_cast h2
  have c3 : (0 : ℚ) ≤ (config.hr_benefits_bonus_points : ℚ) := by exact_mod_cast h3
  have c4 : (0 : ℚ) ≤ (config.verified_email_bonus : ℚ) := by exact_mod_cast h4
  positivity

theorem contact_score_nonneg (config : ContactScoringConfig)
    (contacts : List Contact) (hok : ContactConfigOK config) :
    0 ≤ calculate_contact_score config contacts := by
  unfold calculate_contact_score
  by_cases h : contacts = []
  · simp [h]
  · simp only [if_neg h]
    refine le_min (by exact_mod_cast hok.2.2.2.2.2) ?_
    split_ifs with h3
    · have := contact_score_raw_nonneg config contacts hok
      have hb : (0 : ℚ) ≤ (config.multiple_contacts_bonus : ℚ) := by
        exact_mod_cast hok.2.2.2.2.1
      linarith
    · exact contact_score_raw_nonneg config contacts hok

theorem contact_score_le_max (config : ContactScoringConfig)
    (contacts : List Contact) (hmax : 0 ≤ config.max_contact_score) :
    calculate_contact_score config contacts ≤ (config.max_contact_score : ℚ) := by
  unfold calculate_contact_score
  by_cases h : contacts = []
  · simp only [if_pos h]
    exact_mod_cast hmax
  · simp only [if_neg h]
    exact min_le_left _ _

theorem assign_walk_eq_runningTotals (normalized : ℚ)
    (l : List (String × ℚ)) (acc : ℚ) :
    assign_walk normalized l acc =
      ((runningTotals acc l).find? fun p => decide (normalized ≤ p.2)).map Prod.fst := by
  induction l generalizing acc with
  | nil => rfl
  | cons hd tl ih =>
    obtain ⟨v, w⟩ := hd
    simp only [assign_walk, runningTotals, List.find?]
    by_cases h : normalized ≤ acc + w
    · simp [h]
    · simp only [h, decide_eq_true_eq, if_neg, decide_eq_false h]
      exact ih (acc + w)

/-! Claim theorems. -/

/-- C2: for every integer score in `[0,100]`, `calculate_grade` returns
exactly the grade of the documented ladder (≥95→A+, …, ≥55→C-, else D),
with every boundary value mapped as listed. -/
theorem grade_matches_ladder (score : ℤ) (h0 : 0 ≤ score) (h1 : score ≤ 100) :
    calculate_grade score = gradeSpec score := by
  interval_cases score <;> rfl

/-- Witness for C2 at the documented boundaries 54, 55, 60, 80 and 95. -/
theorem grade_matches_ladder_witness :
    ((0 : ℤ) ≤ 54 ∧ (54 : ℤ) ≤ 100 ∧ calculate_grade 54 = "D")
    ∧ calculate_grade 55 = "C-"
    ∧ calculate_grade 60 = "C"
    ∧ calculate_grade 80 = "B+"
    ∧ calculate_grade 95 = "A+" :=
  ⟨⟨by decide, by decide, (grade_matches_ladder 54 (by decide) (by decide)).trans rfl⟩,
   (grade_matches_ladder 55 (by decide) (by decide)).trans rfl,
   (grade_matches_ladder 60 (by decide) (by decide)).trans rfl,
   (grade_matches_ladder 80 (by decide) (by decide)).trans rfl,
   (grade_matches_ladder 95 (by decide) (by decide)).trans rfl⟩

/-- C4: the variant resolver is a pure function of the configuration, the
hash oracle and the entity id (so any two calls on unchanged inputs agree),
and with A/B testing disabled it returns `"control"` independently of the
hash oracle, i.e. without hashing. -/
theorem variant_resolver_deterministic (cfg : LeadScoringConfig)
    (md5a md5b : String → ℕ) (company_id : String) :
    ((∀ s, md5a s = md5b s) →
      get_algorithm_variant cfg md5a company_id
        = get_algorithm_variant cfg md5b company_id)
    ∧ (cfg.ab_testing.enabled = false →
        get_algorithm_variant cfg md5a company_id = "control"
        ∧ get_algorithm_variant cfg md5a company_id
            = get_algorithm_variant cfg md5b company_id) := by
  constructor
  · intro h
    unfold get_algorithm_variant
    rw [h company_id]
  · intro h
    unfold get_algorithm_variant
    rw [h]
    simp

/-- Witness for C4: the shipped default config has A/B testing disabled and
two distinct hash oracles both resolve to `"control"`. -/
theorem variant_resolver_deterministic_witness :
    get_algorithm_variant defaultConfig (fun _ => 0) "company-1" = "control"
    ∧ get_algorithm_variant defaultConfig (fun _ => 0) "company-1"
        = get_algorithm_variant defaultConfig (fun _ => 7) "company-1" :=
  (variant_resolver_deterministic defaultConfig (fun _ => 0) (fun _ => 7)
    "company-1").2 rfl

/-- C3: `get_variant_assignment` hashes the concatenation of the test name
and the entity id, normalizes `digest % 1000 / 1000` into `[0,1)`, selects
the first variant of the traffic table whose running weight total covers
the normalized value, and otherwise falls back to the first variant of the
variant table in its defined order. -/
theorem variant_assignment_algorithm (md5_int : String → ℕ)
    (company_id : String) (test_config : TestConfig) :
    (0 ≤ ((md5_int (test_config.test_name ++ "_" ++ company_id) % 1000 : ℕ) : ℚ) / 1000
      ∧ ((md5_int (test_config.test_name ++ "_" ++ company_id) % 1000 : ℕ) : ℚ) / 1000 < 1)
    ∧ get_variant_assignment md5_int company_id test_config =
        (((runningTotals 0 test_config.traffic_split).find? fun p =>
            decide (((md5_int (test_config.test_name ++ "_" ++ company_id) % 1000 : ℕ) : ℚ) / 1000 ≤ p.2)).map
          Prod.fst).orElse
          (fun _ => (test_config.variant_configs.map Prod.fst).head?) := by
  refine ⟨⟨by positivity, ?_⟩, ?_⟩
  · rw [div_lt_one (by norm_num)]
    exact_mod_cast Nat.mod_lt _ (by norm_num)
  · unfold get_variant_assignment
    dsimp only
    rw [assign_walk_eq_runningTotals]
    cases ((runningTotals 0 test_config.traffic_split).find? fun p =>
        decide (((md5_int (test_config.test_name ++ "_" ++ company_id) % 1000 : ℕ) : ℚ) / 1000 ≤ p.2)) <;>
      rfl

/-- C7: with either compared variant's sample size below 30 the
significance check reports not significant with no p-value, no winning
variant and no lift; otherwise the lift is
`(variant_rate - control_rate) / control_rate * 100` and the result is
flagged significant iff the absolute rate difference exceeds 0.05.
(The hypothesis `0 ≤ control_rate` holds of the source, where rates are
ratios of counts; at `control_rate = 0` the source's guarded lift `0`
agrees with the formula read in `ℚ`.) -/
theorem significance_check (control variant : String)
    (control_stats variant_stats_data : VariantStats)
    (rest : List (String × VariantStats))
    (hcr : 0 ≤ control_stats.conversion_rate) :
    ((control_stats.sample_size < 30 ∨ variant_stats_data.sample_size < 30) →
      calculate_significance
          ((control, control_stats) :: (variant, variant_stats_data) :: rest)
        = (false, none, none, none))
    ∧ (30 ≤ control_stats.sample_size → 30 ≤ variant_stats_data.sample_size →
        (calculate_significance
            ((control, control_stats) :: (variant, variant_stats_data) :: rest)).2.2.2
          = some ((variant_stats_data.conversion_rate - control_stats.conversion_rate)
              / control_stats.conversion_rate * 100)
        ∧ ((calculate_significance
              ((control, control_stats) :: (variant, variant_stats_data) :: rest)).1 = true
            ↔ 0.05 < |variant_stats_data.conversion_rate - control_stats.conversion_rate|)) := by
  constructor
  · intro h
    simp [calculate_significance, if_pos h]
  · intro h1 h2
    have hge : ¬(control_stats.sample_size < 30 ∨ variant_stats_data.sample_size < 30) := by
      omega
    constructor
    · simp only [calculate_significance, if_neg hge]
      rcases lt_or_eq_of_le hcr with h0 | h0
      · simp [if_pos h0]
      · simp [← h0]
    · simp [calculate_significance, if_neg hge]

/-- Witness for C7: two fully-populated variants with rates 0.2 and 0.3
over samples of 50 and 40, and the same pair with the control sample
shrunk below 30. -/
theorem significance_check_witness :
    ((0 : ℚ) ≤ (0.2 : ℚ))
    ∧ (calculate_significance
          [("control", ⟨20, 0.2⟩), ("variant_a", ⟨40, 0.3⟩)]
        = (false, none, none, none))
    ∧ ((calculate_significance
          [("control", ⟨50, 0.2⟩), ("variant_a", ⟨40, 0.3⟩)]).2.2.2
        = some (((0.3 : ℚ) - 0.2) / 0.2 * 100))
    ∧ ((calculate_significance
          [("control", ⟨50, 0.2⟩), ("variant_a", ⟨40, 0.3⟩)]).1 = true
        ↔ (0.05 : ℚ) < |(0.3 : ℚ) - 0.2|) :=
  ⟨by norm_num,
   (significance_check "control" "variant_a" ⟨20, 0.2⟩ ⟨40, 0.3⟩ []
      (by norm_num)).1 (by decide),
   ((significance_check "control" "variant_a" ⟨50, 0.2⟩ ⟨40, 0.3⟩ []
      (by norm_num)).2 (by decide) (by decide)).1,
   ((significance_check "control" "variant_a" ⟨50, 0.2⟩ ⟨40, 0.3⟩ []
      (by norm_num)).2 (by decide) (by decide)).2⟩

theorem batch_mem_iff (score_fn : Company → Except String LeadScoreResult)
    (companies : List Company) (r : LeadScoreResult) :
    r ∈ batch_score_companies score_fn companies
      ↔ ∃ c ∈ companies, score_fn c = .ok r := by
  induction companies with
  | nil => simp [batch_score_companies]
  | cons c rest ih =>
    cases h : score_fn c with
    | ok a =>
      simp only [batch_score_companies, h, List.mem_cons, ih]
      constructor
      · rintro (rfl | ⟨c', hc', hok⟩)
        · exact ⟨c, Or.inl rfl, h⟩
        · exact ⟨c', Or.inr hc', hok⟩
      · rintro ⟨c', (rfl | hc'), hok⟩
        · rw [h] at hok
          injection hok with h'
          exact Or.inl h'.symm
        · exact Or.inr ⟨c', hc', hok⟩
    | error s =>
      simp only [batch_score_companies, h, List.mem_cons, ih]
      constructor
      · rintro ⟨c', hc', hok⟩
        exact ⟨c', Or.inr hc', hok⟩
      · rintro ⟨c', (rfl | hc'), hok⟩
        · rw [h] at hok
          exact Except.noConfusion hok
        · exact ⟨c', hc', hok⟩

/-- C8: a scorer exception on one batch item is skipped without aborting
the batch: every other item's successful result is still returned, every
returned result comes from some successfully scored item, and no returned
result belongs to the failed item. -/
theorem batch_failure_isolated
    (score_fn : Company → Except String LeadScoreResult)
    (companies : List Company) (bad : Company) (e : String)
    (hmem : bad ∈ companies) (herr : score_fn bad = .error e)
    (hid : ∀ c ∈ companies, ∀ r, score_fn c = .ok r → r.company_id = c.id)
    (hinj : ∀ c ∈ companies, c.id = bad.id → c = bad) :
    (∀ c ∈ companies, ∀ r, score_fn c = .ok r →
        r ∈ batch_score_companies score_fn companies)
    ∧ (∀ r ∈ batch_score_companies score_fn companies,
        ∃ c ∈ companies, score_fn c = .ok r)
    ∧ (∀ r ∈ batch_score_companies score_fn companies, r.company_id ≠ bad.id) := by
  refine ⟨?_, ?_, ?_⟩
  · intro c hc r hr
    exact (batch_mem_iff score_fn companies r).mpr ⟨c, hc, hr⟩
  · intro r hr
    exact (batch_mem_iff score_fn companies r).mp hr
  · intro r hr hbad
    obtain ⟨c, hc, hok⟩ := (batch_mem_iff score_fn companies r).mp hr
    have hcid : c.id = bad.id := (hid c hc r hok) ▸ hbad
    have : c = bad := hinj c hc hcid
    rw [this, herr] at hok
    exact Except.noConfusion hok

/-- Witness for C8: in the ten-item batch whose fifth item fails, every
other item's result is returned, all results come from scored items, none
belongs to `"c5"` — and the batch still yields nine results. -/
theorem batch_failure_isolated_witness :
    ((∀ c ∈ witnessCompanies, ∀ r, witnessScoreFn c = .ok r →
        r ∈ batch_score_companies witnessScoreFn witnessCompanies)
      ∧ (∀ r ∈ batch_score_companies witnessScoreFn witnessCompanies,
          ∃ c ∈ witnessCompanies, witnessScoreFn c = .ok r)
      ∧ (∀ r ∈ batch_score_companies witnessScoreFn witnessCompanies,
          r.company_id ≠ (testCompany "c5").id))
    ∧ (batch_score_companies witnessScoreFn witnessCompanies).length = 9 :=
  ⟨batch_failure_isolated witnessScoreFn witnessCompanies (testCompany "c5")
      "malformed item" (by decide) rfl
      (by
        intro c _ r hr
        unfold witnessScoreFn at hr
        by_cases h : c.id = "c5"
        · rw [if_pos h] at hr
          exact Except.noConfusion hr
        · rw [if_neg h] at hr
          injection hr with h'
          rw [← h']
          rfl)
      (by decide),
   by decide⟩

/-- C6: the contact score is the per-category counts weighted by the
configured points plus the multiple-contacts bonus at three or more
contacts, clamped to `[0, max_contact_score]`, with an empty list
short-circuiting to 0. -/
theorem contact_score_formula (config : ContactScoringConfig)
    (contacts : List Contact) (hok : ContactConfigOK config) :
    calculate_contact_score config [] = 0
    ∧ calculate_contact_score config contacts = contactScoreSpec config contacts
    ∧ 0 ≤ calculate_contact_score config contacts
    ∧ calculate_contact_score config contacts ≤ (config.max_contact_score : ℚ) := by
  refine ⟨rfl, ?_, contact_score_nonneg config contacts hok,
    contact_score_le_max config contacts hok.2.2.2.2.2⟩
  unfold calculate_contact_score contactScoreSpec
  by_cases h : contacts = []
  · simp [h]
  · simp only [if_neg h]
    rw [List.countP_eq_length_filter, List.countP_eq_length_filter,
      List.countP_eq_length_filter, List.countP_eq_length_filter]
    congr 1
    split_ifs <;> ring

/-- Witness for C6 on the shipped defaults: a list of 1000 contacts that
are simultaneously decision-makers, executives, HR-related and
email-verified still scores at most the configured cap of 30. -/
theorem contact_score_formula_witness :
    ContactConfigOK defaultConfig.contact_scoring
    ∧ calculate_contact_score defaultConfig.contact_scoring
        (List.replicate 1000 fullContact)
      ≤ (defaultConfig.contact_scoring.max_contact_score : ℚ) :=
  ⟨by decide,
   (contact_score_formula defaultConfig.contact_scoring
      (List.replicate 1000 fullContact) (by decide)).2.2.2⟩

/-- C10: with non-negative contact-scoring constants, appending any
contact to a contact list never lowers the contact score. -/
theorem contact_score_monotone (config : ContactScoringConfig)
    (contacts : List Contact) (c : Contact) (hok : ContactConfigOK config) :
    calculate_contact_score config contacts
      ≤ calculate_contact_score config (contacts ++ [c]) := by
  by_cases h : contacts = []
  · subst h
    simpa using contact_score_nonneg config [c] hok
  · have h' : contacts ++ [c] ≠ [] := by
      simp
    unfold calculate_contact_score
    simp only [if_neg h, if_neg h']
    apply min_le_min le_rfl
    obtain ⟨h1, h2, h3, h4, h5, h6⟩ := hok
    have c1 : (0 : ℚ) ≤ (config.decision_maker_base_points : ℚ) := by exact_mod_cast h1
    have c2 : (0 : ℚ) ≤ (config.executive_bonus_points : ℚ) := by exact_mod_cast h2
    have c3 : (0 : ℚ) ≤ (config.hr_benefits_bonus_points : ℚ) := by exact_mod_cast h3
    have c4 : (0 : ℚ) ≤ (config.verified_email_bonus : ℚ) := by exact_mod_cast h4
    have c5 : (0 : ℚ) ≤ (config.multiple_contacts_bonus : ℚ) := by exact_mod_cast h5
    have grow : ∀ p : Contact → Bool,
        (contacts.filter p).length ≤ ((contacts ++ [c]).filter p).length := by
      intro p
      rw [List.filter_append, List.length_append]
      exact Nat.le_add_right _ _
    have base :
        (contacts.filter (·.is_decision_maker)).length * (config.decision_maker_base_points : ℚ)
          + (contacts.filter (·.is_executive)).length * (config.executive_bonus_points : ℚ)
          + (contacts.filter (·.is_hr_related)).length * (config.hr_benefits_bonus_points : ℚ)
          + (contacts.filter (·.email_verified)).length * (config.verified_email_bonus : ℚ)
        ≤ ((contacts ++ [c]).filter (·.is_decision_maker)).length * (config.decision_maker_base_points : ℚ)
          + ((contacts ++ [c]).filter (·.is_executive)).length * (config.executive_bonus_points : ℚ)
          + ((contacts ++ [c]).filter (·.is_hr_related)).length * (config.hr_benefits_bonus_points : ℚ)
          + ((contacts ++ [c]).filter (·.email_verified)).length * (config.verified_email_bonus : ℚ) := by
      gcongr <;> exact grow _
    by_cases ha : 3 ≤ contacts.length
    · have hb : 3 ≤ (contacts ++ [c]).length := by
        rw [List.length_append]
        omega
      rw [if_pos ha, if_pos hb]
      linarith
    · rw [if_neg ha]
      by_cases hb : 3 ≤ (contacts ++ [c]).length
      · rw [if_pos hb]
        linarith
      · rw [if_neg hb]
        exact base

/-- Witness for C10 on the shipped defaults: appending a full-featured
contact to a two-contact list does not lower the score. -/
theorem contact_score_monotone_witness :
    ContactConfigOK defaultConfig.contact_scoring
    ∧ calculate_contact_score defaultConfig.contact_scoring
        [fullContact, fullContact]
      ≤ calculate_contact_score defaultConfig.contact_scoring
          [fullContact, fullContact, fullContact] :=
  ⟨by decide,
   contact_score_monotone defaultConfig.contact_scoring
     [fullContact, fullContact] fullContact (by decide)⟩

theorem truncation_walk_eq_findSome (table : List (String × IndustryWeight))
    (code : String) (L : ℕ) :
    industry_truncation_walk table code (L + 1) =
      ((List.range' 2 L).reverse.map fun l => code.take l).findSome?
        (fun candidate => dict_get candidate table) := by
  induction L with
  | zero => rfl
  | succ n ih =>
    rw [List.range'_1_concat, List.reverse_append]
    simp only [List.reverse_cons, List.reverse_nil, List.nil_append,
      List.singleton_append, List.map_cons, List.findSome?_cons]
    rw [Nat.add_comm 2 n]
    show industry_truncation_walk table code (n + 2) = _
    cases h : dict_get (code.take (n + 2)) table with
    | some iw => simp [industry_truncation_walk, h]
    | none => simp [industry_truncation_walk, h, ih]

/-- C5: the industry lookup tries the exact code first, then the
truncations of the query in order of decreasing length down to two
characters, returning the first table hit; a missing or empty code yields
the configured default entry; the function is total (it always returns a
value). -/
theorem industry_lookup_matches_spec (cfg : LeadScoringConfig)
    (naics_code : Option String) :
    get_industry_weight cfg naics_code = industryLookupSpec cfg naics_code := by
  cases naics_code with
  | none => rfl
  | some code =>
    unfold get_industry_weight industryLookupSpec
    dsimp only
    by_cases he : code.isEmpty
    · simp [he]
    · rw [if_neg he, if_neg he, List.findSome?_cons]
      cases hx : dict_get code cfg.industry_weights with
      | some iw => rfl
      | none =>
        cases hl : code.length with
        | zero =>
          exfalso
          apply he
          have hdata : code.data.length = 0 := by
            rw [String.length_data, hl]
          have : code = "" := by
            cases code with
            | mk d =>
              rw [List.length_eq_zero] at hdata
              have hd : d = [] := hdata
              rw [hd]
          rw [this]
          rfl
        | succ n =>
          cases n with
          | zero =>
            simp [industry_truncation_walk]
          | succ m =>
            dsimp only
            rw [show m + 1 + 1 - 1 = m + 1 from rfl,
              show m + 1 + 1 - 2 = m from rfl,
              truncation_walk_eq_findSome]

/-- C9: an override variant name absent from the `algorithm_variants`
table resolves to the `"control"` entry instead of raising, so
`calculate_score` succeeds with the control configuration (weights and
version) while the result's `created_by` tag still carries the
unrecognized name. -/
theorem unknown_variant_uses_control (cfg : LeadScoringConfig)
    (md5_int : String → ℕ) (now : ℤ) (company : Company)
    (contacts : Option (List Contact)) (v : String) (ctrl : VariantConfig)
    (b10 : SizeBucket)
    (hctrl : dict_get "control" cfg.ab_testing.algorithm_variants = some ctrl)
    (hmiss : dict_get v cfg.ab_testing.algorithm_variants = none)
    (hv : v ≠ "")
    (hb : dict_get (RangeSpec.interval 1 10) cfg.employee_size.ranges = some b10) :
    get_variant_config cfg v = some ctrl
    ∧ ∃ r, calculate_score cfg md5_int now company contacts (some v) = some r
        ∧ r.scoring_version = ctrl.version
        ∧ r.created_by = "algorithm_" ++ v := by
  have hvc : get_variant_config cfg v = some ctrl := by
    unfold get_variant_config
    rw [hctrl, hmiss]
    rfl
  refine ⟨hvc, ?_⟩
  have hemp : v.isEmpty = false := by
    cases h : v.isEmpty
    · rfl
    · exact absurd ((String.isEmpty_iff v).mp h) hv
  have hbucket : ∃ b, get_employee_size_config cfg (get_employee_count company) = some b := by
    unfold get_employee_size_config
    cases hf : cfg.employee_size.ranges.find?
        (fun p => is_in_range (get_employee_count company) p.1) with
    | some p => exact ⟨p.2, rfl⟩
    | none => exact ⟨b10, hb⟩
  obtain ⟨b, hbs⟩ := hbucket
  have hsize : ∃ q, calculate_size_score cfg company = some q := by
    unfold calculate_size_score
    dsimp only
    by_cases h0 : get_employee_count company = 0
    · rw [if_pos h0]
      exact ⟨20, rfl⟩
    · rw [if_neg h0, hbs]
      exact ⟨_, rfl⟩
  obtain ⟨q, hq⟩ := hsize
  unfold calculate_score
  dsimp only
  rw [hemp]
  simp only [Bool.false_eq_true, if_false]
  rw [hvc, hq, hbs]
  exact ⟨_, rfl, rfl, rfl⟩

/-- Witness for C9: scoring with the unknown override `"bogus"` on the
default config succeeds with the control version `"1.0"` and tags the
result `"algorithm_bogus"`. -/
theorem unknown_variant_uses_control_witness :
    get_variant_config defaultConfig "bogus" =
      some { version := "1.0", industry_weight := 4/10, size_weight := 3/10,
             contact_weight := 2/10, data_quality_weight := 1/10 }
    ∧ ∃ r, calculate_score defaultConfig (fun _ => 0) 0 (testCompany "c0")
          none (some "bogus") = some r
        ∧ r.scoring_version =
            ({ version := "1.0", industry_weight := 4/10, size_weight := 3/10,
               contact_weight := 2/10, data_quality_weight := 1/10 } : VariantConfig).version
        ∧ r.created_by = "algorithm_" ++ "bogus" :=
  unknown_variant_uses_control defaultConfig (fun _ => 0) 0 (testCompany "c0")
    none "bogus"
    { version := "1.0", industry_weight := 4/10, size_weight := 3/10,
      contact_weight := 2/10, data_quality_weight := 1/10 }
    { score := 20, bonus := 0, category := "micro" }
    rfl rfl (by decide) rfl

theorem dict_get_mem {κ α : Type} [DecidableEq κ] {k : κ} {l : List (κ × α)}
    {a : α} (h : dict_get k l = some a) : ∃ p ∈ l, p.2 = a := by
  unfold dict_get at h
  revert h
  cases hf : l.find? (fun p => decide (p.1 = k)) with
  | none =>
    intro h
    exact absurd h (by simp)
  | some p =>
    intro h
    injection h with h'
    exact ⟨p, List.mem_of_find?_eq_some hf, h'⟩

theorem truncation_walk_mem (table : List (String × IndustryWeight))
    (code : String) :
    ∀ (n : ℕ) (iw : IndustryWeight),
      industry_truncation_walk table code n = some iw → ∃ p ∈ table, p.2 = iw := by
  intro n
  induction n with
  | zero =>
    intro iw h
    simp [industry_truncation_walk] at h
  | succ m ih =>
    intro iw h
    cases m with
    | zero => simp [industry_truncation_walk] at h
    | succ k =>
      unfold industry_truncation_walk at h
      revert h
      cases hx : dict_get (code.take (k + 1 + 1)) table with
      | some iw' =>
        intro h
        injection h with h'
        exact h' ▸ dict_get_mem hx
      | none =>
        intro h
        exact ih iw h

theorem get_industry_weight_ok (cfg : LeadScoringConfig)
    (h1 : ∀ p ∈ cfg.industry_weights, IndustryWeightOK p.2)
    (h2 : IndustryWeightOK cfg.default_industry) (naics : Option String) :
    IndustryWeightOK (get_industry_weight cfg naics) := by
  unfold get_industry_weight
  cases naics with
  | none => exact h2
  | some code =>
    dsimp only
    by_cases he : code.isEmpty
    · rw [if_pos he]
      exact h2
    · rw [if_neg he]
      cases hx : dict_get code cfg.industry_weights with
      | some iw =>
        obtain ⟨p, hp, hpe⟩ := dict_get_mem hx
        exact hpe ▸ h1 p hp
      | none =>
        cases hw : industry_truncation_walk cfg.industry_weights code
            (code.length - 1) with
        | none => simpa [hw] using h2
        | some iw =>
          obtain ⟨p, hp, hpe⟩ := truncation_walk_mem cfg.industry_weights code _ iw hw
          simpa [hw] using hpe ▸ h1 p hp

theorem industry_score_bounds (cfg : LeadScoringConfig) (company : Company)
    (h1 : ∀ p ∈ cfg.industry_weights, IndustryWeightOK p.2)
    (h2 : IndustryWeightOK cfg.default_industry) :
    0 ≤ calculate_industry_score cfg company
      ∧ calculate_industry_score cfg company ≤ 100 := by
  unfold calculate_industry_score
  obtain ⟨hw0, _, hb0, _⟩ := get_industry_weight_ok cfg h1 h2 company.naics_code
  refine ⟨le_min (by norm_num) ?_, min_le_left _ _⟩
  exact mul_nonneg (by exact_mod_cast hb0) hw0

theorem size_bucket_mem (cfg : LeadScoringConfig) (count : Int) (b : SizeBucket)
    (h : get_employee_size_config cfg count = some b) :
    ∃ p ∈ cfg.employee_size.ranges, p.2 = b := by
  unfold get_employee_size_config at h
  revert h
  cases hf : cfg.employee_size.ranges.find? (fun p => is_in_range count p.1) with
  | some p =>
    intro h
    injection h with h'
    exact ⟨p, List.mem_of_find?_eq_some hf, h'⟩
  | none =>
    intro h
    exact dict_get_mem h

theorem size_score_bounds (cfg : LeadScoringConfig) (company : Company) (q : ℚ)
    (hr : ∀ p ∈ cfg.employee_size.ranges, 0 ≤ p.2.score ∧ 0 ≤ p.2.bonus)
    (hbp : 0 ≤ cfg.employee_size.bonus_points)
    (h : calculate_size_score cfg company = some q) : 0 ≤ q ∧ q ≤ 100 := by
  unfold calculate_size_score at h
  dsimp only at h
  by_cases h0 : get_employee_count company = 0
  · rw [if_pos h0] at h
    injection h with h'
    rw [← h']
    norm_num
  · rw [if_neg h0] at h
    revert h
    cases hb : get_employee_size_config cfg (get_employee_count company) with
    | none =>
      intro h
      exact absurd h (by simp)
    | some b =>
      intro h
      injection h with h'
      obtain ⟨p, hp, hpe⟩ := size_bucket_mem cfg _ b hb
      obtain ⟨hs, hbo⟩ := hpe ▸ hr p hp
      rw [← h']
      refine ⟨le_min (by norm_num) ?_, min_le_left _ _⟩
      have hs' : (0 : ℚ) ≤ (b.score : ℚ) := by exact_mod_cast hs
      have hbo' : (0 : ℚ) ≤ (b.bonus : ℚ) := by exact_mod_cast hbo
      have hbp' : (0 : ℚ) ≤ (cfg.employee_size.bonus_points : ℚ) := by
        exact_mod_cast hbp
      split_ifs <;> linarith

theorem dq_score_bounds (cfg : LeadScoringConfig) (company : Company) (now : ℤ)
    (hok : DataQualityWeightsOK cfg.data_quality_weights) :
    0 ≤ calculate_data_quality_score cfg company now
      ∧ calculate_data_quality_score cfg company now ≤ 20 := by
  obtain ⟨h1, h2, h3, h4, h5, h6⟩ := hok
  unfold calculate_data_quality_score
  refine ⟨le_min (by norm_num) ?_, min_le_left _ _⟩
  have t1 : (0 : ℚ) ≤
      (if truthy_str company.website
       then (cfg.data_quality_weights.has_website : ℚ) else 0) := by
    split_ifs
    · exact_mod_cast h1
    · exact le_refl 0
  have t2 : (0 : ℚ) ≤
      (if truthy_str company.phone
       then (cfg.data_quality_weights.has_phone : ℚ) else 0) := by
    split_ifs
    · exact_mod_cast h2
    · exact le_refl 0
  have t3 : (0 : ℚ) ≤
      (if truthy_str company.email_domain
       then (cfg.data_quality_weights.has_email_domain : ℚ) else 0) := by
    split_ifs
    · exact_mod_cast h3
    · exact le_refl 0
  have t4 : (0 : ℚ) ≤
      (if truthy_str company.street_address && truthy_str company.city &&
          truthy_str company.state
       then (cfg.data_quality_weights.has_address : ℚ) else 0) := by
    split_ifs
    · exact_mod_cast h4
    · exact le_refl 0
  have t5 : (0 : ℚ) ≤
      (if truthy_str company.ein
       then (cfg.data_quality_weights.has_ein : ℚ) else 0) := by
    split_ifs
    · exact_mod_cast h5
    · exact le_refl 0
  have t6 : (0 : ℚ) ≤
      (if (match company.updated_at with
           | some t => decide (now - 30 < t)
           | none => false)
       then (cfg.data_quality_weights.recent_data : ℚ) else 0) := by
    split_ifs
    · exact Int.cast_nonneg.mpr h6
    · exact le_refl 0
  linarith

theorem variant_config_mem (cfg : LeadScoringConfig) (v : String)
    (vc : VariantConfig) (h : get_variant_config cfg v = some vc) :
    ∃ p ∈ cfg.ab_testing.algorithm_variants, p.2 = vc := by
  unfold get_variant_config at h
  revert h
  cases hc : dict_get "control" cfg.ab_testing.algorithm_variants with
  | none =>
    intro h
    exact absurd h (by simp)
  | some ctrl =>
    intro h
    injection h with h'
    revert h'
    cases hv : dict_get v cfg.ab_testing.algorithm_variants with
    | some w =>
      intro h'
      simp only [Option.getD_some] at h'
      exact h' ▸ dict_get_mem hv
    | none =>
      intro h'
      simp only [Option.getD_none] at h'
      exact h' ▸ dict_get_mem hc

theorem int_trunc_bounds (q : ℚ) (h0 : 0 ≤ q) (h1 : q ≤ 100) :
    0 ≤ int_trunc q ∧ int_trunc q ≤ 100 := by
  unfold int_trunc
  rw [if_pos h0]
  refine ⟨Int.floor_nonneg.mpr h0, ?_⟩
  calc ⌊q⌋ ≤ ⌊(100 : ℚ)⌋ := Int.floor_le_floor h1
    _ = 100 := by
      rw [show (100 : ℚ) = ((100 : ℤ) : ℚ) by norm_num, Int.floor_intCast]

/-- C1: for every company, contact list and variant (override or
resolved), a produced score has `total_score ∈ [0,100]` — the weighted
sum is clamped after summation — and each component score is clamped to
its own cap before weighting: industry and size to 100, contact to the
configured `max_contact_score`, data quality to 20. -/
theorem total_score_in_range (cfg : LeadScoringConfig) (md5_int : String → ℕ)
    (now : ℤ) (company : Company) (contacts : Option (List Contact))
    (algorithm_variant : Option String) (r : LeadScoreResult)
    (hwf : WellFormedConfig cfg)
    (h : calculate_score cfg md5_int now company contacts algorithm_variant = some r) :
    (0 ≤ r.total_score ∧ r.total_score ≤ 100)
    ∧ (0 ≤ calculate_industry_score cfg company
        ∧ calculate_industry_score cfg company ≤ 100)
    ∧ (∀ q, calculate_size_score cfg company = some q → 0 ≤ q ∧ q ≤ 100)
    ∧ (0 ≤ calculate_contact_score cfg.contact_scoring (contacts.getD company.contacts)
        ∧ calculate_contact_score cfg.contact_scoring (contacts.getD company.contacts)
            ≤ (cfg.contact_scoring.max_contact_score : ℚ))
    ∧ (0 ≤ calculate_data_quality_score cfg company now
        ∧ calculate_data_quality_score cfg company now ≤ 20) := by
  obtain ⟨hiw, hdi, hranges, hbp, hcok, hdqok, hvars⟩ := hwf
  have hind := industry_score_bounds cfg company hiw hdi
  have hcon : 0 ≤ calculate_contact_score cfg.contact_scoring
        (contacts.getD company.contacts)
      ∧ calculate_contact_score cfg.contact_scoring (contacts.getD company.contacts)
          ≤ (cfg.contact_scoring.max_contact_score : ℚ) :=
    ⟨contact_score_nonneg _ _ hcok, contact_score_le_max _ _ hcok.2.2.2.2.2⟩
  have hdq := dq_score_bounds cfg company now hdqok
  refine ⟨?_, hind, fun q hq => size_score_bounds cfg company q hranges hbp hq,
    hcon, hdq⟩
  unfold calculate_score at h
  dsimp only at h
  split at h
  · exact absurd h (by simp)
  · rename_i variant_config hvc
    split at h
    · exact absurd h (by simp)
    · rename_i size_score hsize
      split at h
      · exact absurd h (by simp)
      · rename_i size_bucket hbucket
        injection h with h'
        rw [← h']
        obtain ⟨p, hp, hpe⟩ := variant_config_mem cfg _ variant_config hvc
        obtain ⟨w1, w2, w3, w4⟩ := hpe ▸ hvars p hp
        have hsz := size_score_bounds cfg company size_score hranges hbp hsize
        exact int_trunc_bounds _
          (le_min (by norm_num)
            (add_nonneg
              (add_nonneg
                (add_nonneg (mul_nonneg hind.1 w1) (mul_nonneg hsz.1 w2))
                (mul_nonneg hcon.1 w3))
              (mul_nonneg hdq.1 w4)))
          (min_le_left _ _)

theorem int_trunc_intCast (n : ℤ) : int_trunc (n : ℚ) = n := by
  unfold int_trunc
  split_ifs
  · exact Int.floor_intCast n
  · exact Int.ceil_intCast n

theorem defaultConfig_wellFormed : WellFormedConfig defaultConfig := by
  refine ⟨?_, ?_, ?_, ?_, ?_, ?_, ?_⟩
  · intro p hp
    fin_cases hp <;> norm_num [IndustryWeightOK, defaultConfig]
  · norm_num [IndustryWeightOK, defaultConfig]
  · intro p hp
    fin_cases hp <;> norm_num [defaultConfig]
  · norm_num [defaultConfig]
  · exact (by decide : ContactConfigOK defaultConfig.contact_scoring)
  · unfold DataQualityWeightsOK defaultConfig
    norm_num
  · intro p hp
    fin_cases hp <;> norm_num [VariantWeightsOK, defaultConfig]

theorem calculate_score_c0 :
    calculate_score defaultConfig (fun _ => 0) 0 (testCompany "c0") none none
      = some scoredC0 := by
  have e1 : get_algorithm_variant defaultConfig (fun _ => 0)
      (testCompany "c0").id = "control" := rfl
  have e2 : get_variant_config defaultConfig "control" =
      some { version := "1.0", industry_weight := 4/10, size_weight := 3/10,
             contact_weight := 2/10, data_quality_weight := 1/10 } := rfl
  have e3 : calculate_size_score defaultConfig (testCompany "c0") = some 20 := rfl
  have e4 : get_employee_size_config defaultConfig
      (get_employee_count (testCompany "c0")) =
      some { score := 20, bonus := 0, category := "micro" } := rfl
  have e5 : calculate_industry_score defaultConfig (testCompany "c0") = 50 := by
    unfold calculate_industry_score
    have : get_industry_weight defaultConfig (testCompany "c0").naics_code =
        defaultConfig.default_industry := rfl
    rw [this]
    show min (100 : ℚ) (((50 : ℤ) : ℚ) * 1) = 50
    norm_num
  have e6 : calculate_contact_score defaultConfig.contact_scoring
      ((none : Option (List Contact)).getD (testCompany "c0").contacts) = 0 := rfl
  have e7 : calculate_data_quality_score defaultConfig (testCompany "c0") 0 = 0 := by
    unfold calculate_data_quality_score testCompany truthy_str
    norm_num
  have ht : min (100 : ℚ) (50 * (4/10) + 20 * (3/10) + 0 * (2/10) + 0 * (1/10))
      = 26 := by norm_num
  have i26 : int_trunc (26 : ℚ) = 26 := by
    rw [show (26 : ℚ) = ((26 : ℤ) : ℚ) by norm_num]
    exact int_trunc_intCast 26
  have i50 : int_trunc (50 : ℚ) = 50 := by
    rw [show (50 : ℚ) = ((50 : ℤ) : ℚ) by norm_num]
    exact int_trunc_intCast 50
  have i20 : int_trunc (20 : ℚ) = 20 := by
    rw [show (20 : ℚ) = ((20 : ℤ) : ℚ) by norm_num]
    exact int_trunc_intCast 20
  have i0 : int_trunc (0 : ℚ) = 0 := by
    rw [show (0 : ℚ) = ((0 : ℤ) : ℚ) by norm_num]
    exact int_trunc_intCast 0
  unfold calculate_score
  dsimp only
  rw [e1, e2]
  dsimp only
  rw [e3]
  dsimp only
  rw [e4]
  dsimp only
  rw [e5, e6, e7]
  simp only [ht, i26, i50, i20, i0]
  rfl

/-- Witness for C1: the default config is well-formed and the score
produced for a minimal company lands at 26, inside `[0,100]`, with all
component caps respected. -/
theorem total_score_in_range_witness :
    WellFormedConfig defaultConfig
    ∧ ((0 ≤ scoredC0.total_score ∧ scoredC0.total_score ≤ 100)
      ∧ (0 ≤ calculate_industry_score defaultConfig (testCompany "c0")
          ∧ calculate_industry_score defaultConfig (testCompany "c0") ≤ 100)
      ∧ (∀ q, calculate_size_score defaultConfig (testCompany "c0") = some q →
          0 ≤ q ∧ q ≤ 100)
      ∧ (0 ≤ calculate_contact_score defaultConfig.contact_scoring
            ((none : Option (List Contact)).getD (testCompany "c0").contacts)
          ∧ calculate_contact_score defaultConfig.contact_scoring
              ((none : Option (List Contact)).getD (testCompany "c0").contacts)
            ≤ (defaultConfig.contact_scoring.max_contact_score : ℚ))
      ∧ (0 ≤ calculate_data_quality_score defaultConfig (testCompany "c0") 0
          ∧ calculate_data_quality_score defaultConfig (testCompany "c0") 0 ≤ 20)) :=
  ⟨defaultConfig_wellFormed,
   total_score_in_range defaultConfig (fun _ => 0) 0 (testCompany "c0") none none
     scoredC0 defaultConfig_wellFormed calculate_score_c0⟩

end LeadGen
